import Mathlib

/-!
Shallow embedding of the HD44780LCD driver (HD44780LCD.h / HD44780LCD.cpp).

The driver state consists of the fields of the `HD44780LCD` class together
with the `backlightMask` field of its nested `I2CInterface`.  Every method
that touches the bus is modelled as a function from the state to a pair of
the new state and the list of logical bus events it emits (one event per
`con.send_byte`, `con.send_nibble` or raw `con.write` call).  The physical
nibble/strobe framing performed inside `I2CInterface::send_byte` is modelled
separately by `i2c_send_byte`.
-/

namespace HD44780

/-- Constant `LCD_CLEAR_DISPLAY` from the source. -/
def LCD_CLEAR_DISPLAY : Nat := 0x01

/-- Constant `LCD_SET_CURSOR_HOME` from the source. -/
def LCD_SET_CURSOR_HOME : Nat := 0x02

/-- Constant `LCD_SET_ENTRY_MODE` from the source. -/
def LCD_SET_ENTRY_MODE : Nat := 0x04

/-- Constant `LCD_CURSOR_MOVE` from the source. -/
def LCD_CURSOR_MOVE : Nat := 0x00

/-- Constant `LCD_DISPLAY_MOVE` from the source. -/
def LCD_DISPLAY_MOVE : Nat := 0x01

/-- Constant `LCD_CURSOR_POS_DEC` from the source. -/
def LCD_CURSOR_POS_DEC : Nat := 0x00

/-- Constant `LCD_CURSOR_POS_INC` from the source. -/
def LCD_CURSOR_POS_INC : Nat := 0x02

/-- Constant `LCD_CONTROL_DISPLAY` from the source. -/
def LCD_CONTROL_DISPLAY : Nat := 0x08

/-- Constant `LCD_BLINK_DISABLE` from the source. -/
def LCD_BLINK_DISABLE : Nat := 0x00

/-- Constant `LCD_BLINK_ENABLE` from the source. -/
def LCD_BLINK_ENABLE : Nat := 0x01

/-- Constant `LCD_CURSOR_DISABLE` from the source. -/
def LCD_CURSOR_DISABLE : Nat := 0x00

/-- Constant `LCD_CURSOR_ENABLE` from the source. -/
def LCD_CURSOR_ENABLE : Nat := 0x02

/-- Constant `LCD_DISPLAY_ENABLE` from the source. -/
def LCD_DISPLAY_ENABLE : Nat := 0x04

/-- Constant `LCD_SHIFT_CURSOR` from the source. -/
def LCD_SHIFT_CURSOR : Nat := 0x10

/-- Constant `LCD_CURSOR_MOVE_LT` from the source. -/
def LCD_CURSOR_MOVE_LT : Nat := 0x00

/-- Constant `LCD_CURSOR_MOVE_RT` from the source. -/
def LCD_CURSOR_MOVE_RT : Nat := 0x04

/-- Constant `LCD_DISPLAY_MOVE_LT` from the source. -/
def LCD_DISPLAY_MOVE_LT : Nat := 0x08

/-- Constant `LCD_DISPLAY_MOVE_RT` from the source. -/
def LCD_DISPLAY_MOVE_RT : Nat := 0x0C

/-- Constant `LCD_SET_FUNCTION` from the source. -/
def LCD_SET_FUNCTION : Nat := 0x20

/-- Constant `LCD_DOT_COUNT_8` from the source. -/
def LCD_DOT_COUNT_8 : Nat := 0x00

/-- Constant `LCD_LINE_COUNT_2` from the source. -/
def LCD_LINE_COUNT_2 : Nat := 0x08

/-- Constant `LCD_BUS_SIZE_4` from the source. -/
def LCD_BUS_SIZE_4 : Nat := 0x00

/-- Constant `LCD_BUS_SIZE_8` from the source. -/
def LCD_BUS_SIZE_8 : Nat := 0x10

/-- Constant `LCD_SET_CGRAMADDR` from the source. -/
def LCD_SET_CGRAMADDR : Nat := 0x40

/-- Constant `LCD_SET_DDRAMADDR` from the source. -/
def LCD_SET_DDRAMADDR : Nat := 0x80

/-- Constant `LCD_ORIG_ADDR_FIRST` from the source. -/
def LCD_ORIG_ADDR_FIRST : Nat := 0x00

/-- Constant `LCD_ORIG_ADDR_SECOND` from the source. -/
def LCD_ORIG_ADDR_SECOND : Nat := 0x40

/-- Constant `LCD_LINE_SIZE` from the source. -/
def LCD_LINE_SIZE : Nat := 0x28

/-- Constant `RS_ID` from the source. -/
def RS_ID : Nat := 0

/-- Constant `RW_ID` from the source. -/
def RW_ID : Nat := 1

/-- Constant `EN_ID` from the source. -/
def EN_ID : Nat := 2

/-- Constant `BACKLIGHT_ID` from the source. -/
def BACKLIGHT_ID : Nat := 3

/-- Macro `HI_NIBBLE(x)` from the source. -/
def HI_NIBBLE (x : Nat) : Nat := (x >>> 4) &&& 0x0f

/-- Macro `LO_NIBBLE(x)` from the source. -/
def LO_NIBBLE (x : Nat) : Nat := (x >>> 0) &&& 0x0f

/-- Logical bus events: one per call to `I2CInterface::send_byte`,
`I2CInterface::send_nibble`, or to a raw one-byte `con.write` performed by
the backlight methods. -/
inductive Ev where
| byteEv (b : Nat) (isData : Nat)
| nibbleEv (n : Nat) (isData : Nat)
| rawEv (b : Nat)
deriving DecidableEq

/-- Driver state: `cursorLoc` (uint32_t), `displayState` and `cursorMovement`
(uint16_t) from class `HD44780LCD`, plus `backlightMask` (uint8_t) from the
nested `I2CInterface`. -/
structure LCDState where
  cursorLoc : Nat
  displayState : Nat
  cursorMovement : Nat
  backlightMask : Nat
deriving DecidableEq

/-- State after the constructor: `cursorLoc {LCD_ORIG_ADDR_FIRST}` and the
in-class initializers `displayState {0}`, `cursorMovement {0}`; the
`I2CInterface` constructor sets `backlightMask {0}`. -/
def initState : LCDState :=
  { cursorLoc := LCD_ORIG_ADDR_FIRST, displayState := 0, cursorMovement := 0, backlightMask := 0 }

/-- Event of one `con.send_byte(byte, isData)` call; both parameters are
`uint8_t`, so wider C++ arguments are truncated at the call boundary. -/
def send_byte_ev (byte isData : Nat) : Ev := Ev.byteEv (byte % 256) (isData % 256)

/-- Event of one `con.send_nibble(nibble, isData)` call. -/
def send_nibble_ev (nibble isData : Nat) : Ev := Ev.nibbleEv (nibble % 256) (isData % 256)

/-- Method `HD44780LCD::get_cursor_row`. -/
def get_cursor_row (s : LCDState) : Nat :=
  if s.cursorLoc ≥ LCD_ORIG_ADDR_SECOND then 1 else 0

/-- Method `HD44780LCD::get_cursor_col`. -/
def get_cursor_col (s : LCDState) : Nat :=
  s.cursorLoc - (if s.cursorLoc ≥ LCD_ORIG_ADDR_SECOND then LCD_ORIG_ADDR_SECOND else LCD_ORIG_ADDR_FIRST)

/-- Method `HD44780LCD::is_backlight_on` (delegates to the interface). -/
def is_backlight_on (s : LCDState) : Bool := s.backlightMask != 0

/-- Method `HD44780LCD::is_display_enabled`. -/
def is_display_enabled (s : LCDState) : Bool := s.displayState != 0

/-- Method `HD44780LCD::is_cursor_displayed`. -/
def is_cursor_displayed (s : LCDState) : Bool := (s.displayState &&& LCD_CURSOR_ENABLE) != 0

/-- Method `HD44780LCD::is_blinking_cursor_displayed`. -/
def is_blinking_cursor_displayed (s : LCDState) : Bool := (s.displayState &&& LCD_BLINK_ENABLE) != 0

/-- Enum `HD44780LCD::EntryMode`. -/
inductive EntryMode where
| UNINITIALIZED
| CURSOR_INC
| CURSOR_DEC
| DISPLAY_DEC
| DISPLAY_INC
deriving DecidableEq

/-- Method `HD44780LCD::get_entry_mode`: a switch over `cursorMovement` with
a default case returning `CURSOR_INC`. -/
def get_entry_mode (s : LCDState) : EntryMode :=
  if s.cursorMovement = (LCD_CURSOR_MOVE ||| LCD_CURSOR_POS_DEC) then EntryMode.CURSOR_DEC
  else if s.cursorMovement = (LCD_CURSOR_MOVE ||| LCD_CURSOR_POS_INC) then EntryMode.CURSOR_INC
  else if s.cursorMovement = (LCD_DISPLAY_MOVE ||| LCD_CURSOR_POS_INC) then EntryMode.DISPLAY_DEC
  else if s.cursorMovement = (LCD_DISPLAY_MOVE ||| LCD_CURSOR_POS_DEC) then EntryMode.DISPLAY_INC
  else EntryMode.CURSOR_INC

/-- Private method `HD44780LCD::inc_cursor_loc`; `cursorLoc` is `uint32_t`,
so the pre-increment wraps modulo 2^32. -/
def inc_cursor_loc (loc : Nat) : Nat :=
  let loc1 := (loc + 1) % 2 ^ 32
  if loc1 ≥ LCD_ORIG_ADDR_SECOND + LCD_LINE_SIZE then LCD_ORIG_ADDR_FIRST
  else if loc1 < LCD_ORIG_ADDR_SECOND ∧ loc1 ≥ LCD_ORIG_ADDR_FIRST + LCD_LINE_SIZE then LCD_ORIG_ADDR_SECOND
  else loc1

/-- Private method `HD44780LCD::dec_cursor_loc`; the final branch only runs
with a nonzero `cursorLoc`, so natural subtraction is exact there. -/
def dec_cursor_loc (loc : Nat) : Nat :=
  if loc = LCD_ORIG_ADDR_FIRST then LCD_ORIG_ADDR_SECOND + LCD_LINE_SIZE - 1
  else if loc = LCD_ORIG_ADDR_SECOND then LCD_ORIG_ADDR_FIRST + LCD_LINE_SIZE - 1
  else loc - 1

/-- Private method `HD44780LCD::update_display_cursor_pos`. -/
def update_display_cursor_pos (s : LCDState) : List Ev :=
  [send_byte_ev (LCD_SET_DDRAMADDR ||| s.cursorLoc) 0]

/-- Method `HD44780LCD::set_cursor_pos`. -/
def set_cursor_pos (s : LCDState) (r c : Nat) : LCDState × List Ev :=
  if r > 1 ∨ c > LCD_LINE_SIZE then (s, [])
  else
    let s1 := { s with cursorLoc :=
      (if r ≠ 0 then LCD_ORIG_ADDR_SECOND else LCD_ORIG_ADDR_FIRST) + c }
    (s1, update_display_cursor_pos s1)

/-- Method `HD44780LCD::send_data`. -/
def send_data (s : LCDState) (byte : Nat) : LCDState × List Ev :=
  let s1 := if s.cursorMovement &&& LCD_CURSOR_POS_INC ≠ 0
    then { s with cursorLoc := inc_cursor_loc s.cursorLoc }
    else { s with cursorLoc := dec_cursor_loc s.cursorLoc }
  (s1, [send_byte_ev byte 1])

/-- Method `HD44780LCD::send_buffer`, with the buffer and its length given
as a list. -/
def send_buffer (s : LCDState) : List Nat → LCDState × List Ev
| [] => (s, [])
| b :: bs =>
    let p := send_data s b
    let q := send_buffer p.1 bs
    (q.1, p.2 ++ q.2)

/-- Method `HD44780LCD::create_custom_char`; `loc` is `uint32_t` so
`loc << 3` wraps modulo 2^32 before narrowing to the `uint8_t` parameter of
`send_byte`, and the glyph is a fixed array of 8 bytes. -/
def create_custom_char (s : LCDState) (loc : Nat) (glyph : Fin 8 → Nat) : LCDState × List Ev :=
  let ev0 := send_byte_ev (LCD_SET_CGRAMADDR ||| ((loc <<< 3) % 2 ^ 32)) 0
  let evs := List.ofFn (fun i : Fin 8 => send_byte_ev (glyph i) 1)
  let p := set_cursor_pos s (get_cursor_row s) (get_cursor_col s)
  (p.1, ev0 :: evs ++ p.2)

/-- Method `HD44780LCD::enable_backlight` (via `I2CInterface`): sets the mask
and writes the single mask byte on the bus. -/
def enable_backlight (s : LCDState) : LCDState × List Ev :=
  let s1 := { s with backlightMask := 1 <<< BACKLIGHT_ID }
  (s1, [Ev.rawEv s1.backlightMask])

/-- Method `HD44780LCD::disable_backlight` (via `I2CInterface`); the C++
`&= ~(1 << BACKLIGHT_ID)` on a `uint8_t` equals masking with the 8-bit
complement `0xff ^^^ (1 <<< BACKLIGHT_ID)`. -/
def disable_backlight (s : LCDState) : LCDState × List Ev :=
  let s1 := { s with backlightMask := s.backlightMask &&& (0xff ^^^ (1 <<< BACKLIGHT_ID)) }
  (s1, [Ev.rawEv s1.backlightMask])

/-- Method `HD44780LCD::toggle_backlight` (via `I2CInterface`). -/
def toggle_backlight (s : LCDState) : LCDState × List Ev :=
  let s1 := { s with backlightMask := s.backlightMask ^^^ (1 <<< BACKLIGHT_ID) }
  (s1, [Ev.rawEv s1.backlightMask])

/-- Method `HD44780LCD::set_cursor_auto_dec`. -/
def set_cursor_auto_dec (s : LCDState) : LCDState × List Ev :=
  let s1 := { s with cursorMovement := LCD_CURSOR_POS_DEC ||| LCD_CURSOR_MOVE }
  (s1, [send_byte_ev (LCD_SET_ENTRY_MODE ||| s1.cursorMovement) 0])

/-- Method `HD44780LCD::set_cursor_auto_inc`. -/
def set_cursor_auto_inc (s : LCDState) : LCDState × List Ev :=
  let s1 := { s with cursorMovement := LCD_CURSOR_POS_INC ||| LCD_CURSOR_MOVE }
  (s1, [send_byte_ev (LCD_SET_ENTRY_MODE ||| s1.cursorMovement) 0])

/-- Method `HD44780LCD::set_display_auto_dec`. -/
def set_display_auto_dec (s : LCDState) : LCDState × List Ev :=
  let s1 := { s with cursorMovement := LCD_CURSOR_POS_INC ||| LCD_DISPLAY_MOVE }
  (s1, [send_byte_ev (LCD_SET_ENTRY_MODE ||| s1.cursorMovement) 0])

/-- Method `HD44780LCD::set_display_auto_inc`. -/
def set_display_auto_inc (s : LCDState) : LCDState × List Ev :=
  let s1 := { s with cursorMovement := LCD_CURSOR_POS_DEC ||| LCD_DISPLAY_MOVE }
  (s1, [send_byte_ev (LCD_SET_ENTRY_MODE ||| s1.cursorMovement) 0])

/-- Method `HD44780LCD::clear_display`. -/
def clear_display (s : LCDState) : LCDState × List Ev :=
  (s, [send_byte_ev LCD_CLEAR_DISPLAY 0])

/-- Method `HD44780LCD::enable_display`. -/
def enable_display (s : LCDState) : LCDState × List Ev :=
  let s1 := { s with displayState := s.displayState ||| LCD_DISPLAY_ENABLE }
  (s1, [send_byte_ev (LCD_CONTROL_DISPLAY ||| s1.displayState) 0])

/-- Method `HD44780LCD::disable_display`; the C++ `&= ~LCD_DISPLAY_ENABLE`
on a `uint16_t` equals masking with the 16-bit complement. -/
def disable_display (s : LCDState) : LCDState × List Ev :=
  let s1 := { s with displayState := s.displayState &&& (0xffff ^^^ LCD_DISPLAY_ENABLE) }
  (s1, [send_byte_ev (LCD_CONTROL_DISPLAY ||| s1.displayState) 0])

/-- Method `HD44780LCD::toggle_display`. -/
def toggle_display (s : LCDState) : LCDState × List Ev :=
  let s1 := { s with displayState := s.displayState ^^^ LCD_DISPLAY_ENABLE }
  (s1, [send_byte_ev (LCD_CONTROL_DISPLAY ||| s1.displayState) 0])

/-- Method `HD44780LCD::set_cursor_home`. -/
def set_cursor_home (s : LCDState) : LCDState × List Ev :=
  let s1 := { s with cursorLoc := LCD_ORIG_ADDR_FIRST }
  (s1, [send_byte_ev LCD_SET_CURSOR_HOME 0])

/-- Method `HD44780LCD::move_cursor_left`. -/
def move_cursor_left (s : LCDState) : LCDState × List Ev :=
  let s1 := { s with cursorLoc := dec_cursor_loc s.cursorLoc }
  (s1, [send_byte_ev (LCD_SHIFT_CURSOR ||| LCD_CURSOR_MOVE_LT) 0])

/-- Method `HD44780LCD::move_cursor_right`. -/
def move_cursor_right (s : LCDState) : LCDState × List Ev :=
  let s1 := { s with cursorLoc := inc_cursor_loc s.cursorLoc }
  (s1, [send_byte_ev (LCD_SHIFT_CURSOR ||| LCD_CURSOR_MOVE_RT) 0])

/-- Method `HD44780LCD::enable_cursor_display`. -/
def enable_cursor_display (s : LCDState) : LCDState × List Ev :=
  let s1 := { s with displayState := s.displayState ||| LCD_CURSOR_ENABLE }
  (s1, [send_byte_ev (LCD_CONTROL_DISPLAY ||| s1.displayState) 0])

/-- Method `HD44780LCD::disable_cursor_display`. -/
def disable_cursor_display (s : LCDState) : LCDState × List Ev :=
  let s1 := { s with displayState := s.displayState &&& (0xffff ^^^ LCD_CURSOR_ENABLE) }
  (s1, [send_byte_ev (LCD_CONTROL_DISPLAY ||| s1.displayState) 0])

/-- Method `HD44780LCD::toggle_cursor_display`. -/
def toggle_cursor_display (s : LCDState) : LCDState × List Ev :=
  let s1 := { s with displayState := s.displayState ^^^ LCD_CURSOR_ENABLE }
  (s1, [send_byte_ev (LCD_CONTROL_DISPLAY ||| s1.displayState) 0])

/-- Method `HD44780LCD::enable_blinking_cursor`. -/
def enable_blinking_cursor (s : LCDState) : LCDState × List Ev :=
  let s1 := { s with displayState := s.displayState ||| LCD_BLINK_ENABLE }
  (s1, [send_byte_ev (LCD_CONTROL_DISPLAY ||| s1.displayState) 0])

/-- Method `HD44780LCD::disable_blinking_cursor`. -/
def disable_blinking_cursor (s : LCDState) : LCDState × List Ev :=
  let s1 := { s with displayState := s.displayState &&& (0xffff ^^^ LCD_BLINK_ENABLE) }
  (s1, [send_byte_ev (LCD_CONTROL_DISPLAY ||| s1.displayState) 0])

/-- Method `HD44780LCD::toggle_blinking_cursor`. -/
def toggle_blinking_cursor (s : LCDState) : LCDState × List Ev :=
  let s1 := { s with displayState := s.displayState ^^^ LCD_BLINK_ENABLE }
  (s1, [send_byte_ev (LCD_CONTROL_DISPLAY ||| s1.displayState) 0])

/-- Method `HD44780LCD::scroll_display_left`. -/
def scroll_display_left (s : LCDState) : LCDState × List Ev :=
  (s, [send_byte_ev (LCD_SHIFT_CURSOR ||| LCD_DISPLAY_MOVE_LT) 0])

/-- Method `HD44780LCD::scroll_display_right`. -/
def scroll_display_right (s : LCDState) : LCDState × List Ev :=
  (s, [send_byte_ev (LCD_SHIFT_CURSOR ||| LCD_DISPLAY_MOVE_RT) 0])

/-- Method `HD44780LCD::initialize`: sets the two bitmasks and emits the
mode-negotiation nibbles followed by the five setup instruction bytes. -/
def initialize_lcd (s : LCDState) : LCDState × List Ev :=
  let ds := LCD_DISPLAY_ENABLE ||| LCD_CURSOR_DISABLE ||| LCD_BLINK_DISABLE
  let cm := LCD_CURSOR_MOVE ||| LCD_CURSOR_POS_INC
  let s1 := { s with displayState := ds, cursorMovement := cm }
  (s1,
    [send_nibble_ev (HI_NIBBLE (LCD_SET_FUNCTION ||| LCD_BUS_SIZE_8)) 0,
     send_nibble_ev (HI_NIBBLE (LCD_SET_FUNCTION ||| LCD_BUS_SIZE_8)) 0,
     send_nibble_ev (HI_NIBBLE (LCD_SET_FUNCTION ||| LCD_BUS_SIZE_8)) 0,
     send_nibble_ev (HI_NIBBLE (LCD_SET_FUNCTION ||| LCD_BUS_SIZE_4)) 0,
     send_byte_ev (LCD_SET_FUNCTION ||| LCD_BUS_SIZE_4 ||| LCD_DOT_COUNT_8 ||| LCD_LINE_COUNT_2) 0,
     send_byte_ev LCD_CLEAR_DISPLAY 0,
     send_byte_ev LCD_SET_CURSOR_HOME 0,
     send_byte_ev (LCD_CONTROL_DISPLAY ||| ds) 0,
     send_byte_ev (LCD_SET_ENTRY_MODE ||| cm) 0])

/-- Method `HD44780LCD::_putc`: `int` argument, cases for the newline (10)
and carriage-return (13) characters, default forwards the byte (narrowed to
`uint8_t`) to `send_data`. -/
def putc_lcd (s : LCDState) (c : Int) : LCDState × List Ev :=
  if c = 10 then set_cursor_pos s (get_cursor_row s ^^^ 1) (get_cursor_col s)
  else if c = 13 then set_cursor_pos s (get_cursor_row s) 0
  else send_data s (c.emod 256).toNat

/-- One public operation of the driver interface. -/
inductive Op where
| initOp
| sendData (b : Nat)
| sendBuffer (bs : List Nat)
| createCustomChar (loc : Nat) (glyph : Fin 8 → Nat)
| enableBacklight
| disableBacklight
| toggleBacklight
| setCursorAutoDec
| setCursorAutoInc
| setDisplayAutoDec
| setDisplayAutoInc
| clearDisplay
| enableDisplay
| disableDisplay
| toggleDisplay
| setCursorHome
| moveCursorLeft
| moveCursorRight
| setCursorPos (r c : Nat)
| enableCursorDisplay
| disableCursorDisplay
| toggleCursorDisplay
| enableBlinkingCursor
| disableBlinkingCursor
| toggleBlinkingCursor
| scrollDisplayLeft
| scrollDisplayRight
| putc (c : Int)

/-- Dispatch one public operation to its method. -/
def step (s : LCDState) : Op → LCDState × List Ev
| Op.initOp => initialize_lcd s
| Op.sendData b => send_data s b
| Op.sendBuffer bs => send_buffer s bs
| Op.createCustomChar loc glyph => create_custom_char s loc glyph
| Op.enableBacklight => enable_backlight s
| Op.disableBacklight => disable_backlight s
| Op.toggleBacklight => toggle_backlight s
| Op.setCursorAutoDec => set_cursor_auto_dec s
| Op.setCursorAutoInc => set_cursor_auto_inc s
| Op.setDisplayAutoDec => set_display_auto_dec s
| Op.setDisplayAutoInc => set_display_auto_inc s
| Op.clearDisplay => clear_display s
| Op.enableDisplay => enable_display s
| Op.disableDisplay => disable_display s
| Op.toggleDisplay => toggle_display s
| Op.setCursorHome => set_cursor_home s
| Op.moveCursorLeft => move_cursor_left s
| Op.moveCursorRight => move_cursor_right s
| Op.setCursorPos r c => set_cursor_pos s r c
| Op.enableCursorDisplay => enable_cursor_display s
| Op.disableCursorDisplay => disable_cursor_display s
| Op.toggleCursorDisplay => toggle_cursor_display s
| Op.enableBlinkingCursor => enable_blinking_cursor s
| Op.disableBlinkingCursor => disable_blinking_cursor s
| Op.toggleBlinkingCursor => toggle_blinking_cursor s
| Op.scrollDisplayLeft => scroll_display_left s
| Op.scrollDisplayRight => scroll_display_right s
| Op.putc c => putc_lcd s c

/-- Run a sequence of public operations, concatenating their bus traces. -/
def run (s : LCDState) : List Op → LCDState × List Ev
| [] => (s, [])
| op :: ops =>
    let p := step s op
    let q := run p.1 ops
    (q.1, p.2 ++ q.2)

/-- The address set named by the spec invariant: row 0 occupies
`[0x00, 0x28)` and row 1 occupies `[0x40, 0x68)`. -/
def validAddr (a : Nat) : Prop :=
  a < LCD_ORIG_ADDR_FIRST + LCD_LINE_SIZE ∨
  (LCD_ORIG_ADDR_SECOND ≤ a ∧ a < LCD_ORIG_ADDR_SECOND + LCD_LINE_SIZE)

instance (a : Nat) : Decidable (validAddr a) := by
  unfold validAddr
  infer_instance

/-- An operation is restricted when every `set_cursor_pos` call it makes uses
a column strictly below the row width `LCD_LINE_SIZE`. -/
def opRestricted : Op → Bool
| Op.setCursorPos _ c => c < LCD_LINE_SIZE
| _ => true

/-- Body of the per-nibble loop of `I2CInterface::send_byte` and of
`send_nibble`: the field `pack.result`, narrowed to `uint8_t`. -/
def pack_result (nibble isData bl : Nat) : Nat :=
  ((nibble <<< 4) ||| (isData <<< RS_ID) ||| bl) % 256

/-- The middle phase `pack.buf[1] = pack.result | (1 << EN_ID)` of the same
loop, narrowed to `uint8_t`. -/
def pack_strobe (nibble isData bl : Nat) : Nat :=
  (pack_result nibble isData bl ||| (1 <<< EN_ID)) % 256

/-- Method `I2CInterface::send_byte`: the loop variable takes the values 0
and 4, the nibble is `(byte >> (4 ^ u)) & 0xf`, and each nibble is written
as the three phases `pack.buf[0..2]`, one bus byte each. -/
def i2c_send_byte (byte isData bl : Nat) : List Nat :=
  List.foldl
    (fun acc u =>
      let nibble := (byte >>> (4 ^^^ u)) &&& 0xf
      acc ++ [pack_result nibble isData bl, pack_strobe nibble isData bl, pack_result nibble isData bl])
    [] [0, 4]

/-- Call to the const method `HD44780LCD::get_cursor_row`: returns the value
and, being const with no interface call, the unchanged state and no events. -/
def get_cursor_row_call (s : LCDState) : Nat × LCDState × List Ev :=
  (get_cursor_row s, s, [])

/-- Call to the const method `HD44780LCD::get_cursor_col`. -/
def get_cursor_col_call (s : LCDState) : Nat × LCDState × List Ev :=
  (get_cursor_col s, s, [])

/-- Call to the const method `HD44780LCD::is_backlight_on`. -/
def is_backlight_on_call (s : LCDState) : Bool × LCDState × List Ev :=
  (is_backlight_on s, s, [])

/-- Call to the const method `HD44780LCD::is_display_enabled`. -/
def is_display_enabled_call (s : LCDState) : Bool × LCDState × List Ev :=
  (is_display_enabled s, s, [])

/-- Call to the const method `HD44780LCD::is_cursor_displayed`. -/
def is_cursor_displayed_call (s : LCDState) : Bool × LCDState × List Ev :=
  (is_cursor_displayed s, s, [])

/-- Call to the const method `HD44780LCD::is_blinking_cursor_displayed`. -/
def is_blinking_cursor_displayed_call (s : LCDState) : Bool × LCDState × List Ev :=
  (is_blinking_cursor_displayed s, s, [])

/-- Call to the const method `HD44780LCD::get_entry_mode`. -/
def get_entry_mode_call (s : LCDState) : EntryMode × LCDState × List Ev :=
  (get_entry_mode s, s, [])

theorem validAddr_bound {a : Nat} (h : validAddr a) : a < 0x68 := by
  unfold validAddr LCD_ORIG_ADDR_FIRST LCD_ORIG_ADDR_SECOND LCD_LINE_SIZE at h
  omega

theorem validAddr_inc {a : Nat} (h : validAddr a) : validAddr (inc_cursor_loc a) := by
  have hb := validAddr_bound h
  interval_cases a <;> revert h <;> decide

theorem validAddr_dec {a : Nat} (h : validAddr a) : validAddr (dec_cursor_loc a) := by
  have hb := validAddr_bound h
  interval_cases a <;> revert h <;> decide

theorem get_cursor_col_lt {s : LCDState} (h : validAddr s.cursorLoc) :
    get_cursor_col s < LCD_LINE_SIZE := by
  unfold get_cursor_col
  unfold validAddr at h
  unfold LCD_ORIG_ADDR_FIRST LCD_ORIG_ADDR_SECOND LCD_LINE_SIZE at h ⊢
  split_ifs <;> omega

theorem set_cursor_pos_loc (s : LCDState) (r c : Nat) :
    (set_cursor_pos s r c).1.cursorLoc =
      if r > 1 ∨ c > LCD_LINE_SIZE then s.cursorLoc
      else (if r ≠ 0 then LCD_ORIG_ADDR_SECOND else LCD_ORIG_ADDR_FIRST) + c := by
  simp only [set_cursor_pos]
  split_ifs <;> rfl

theorem set_cursor_pos_valid (r c : Nat) {s : LCDState} (h : validAddr s.cursorLoc)
    (hc : c < LCD_LINE_SIZE) : validAddr ((set_cursor_pos s r c).1.cursorLoc) := by
  rw [set_cursor_pos_loc]
  unfold validAddr LCD_ORIG_ADDR_FIRST LCD_ORIG_ADDR_SECOND LCD_LINE_SIZE at h ⊢
  unfold LCD_LINE_SIZE at hc
  split_ifs <;> omega

theorem send_data_loc (s : LCDState) (b : Nat) :
    (send_data s b).1.cursorLoc =
      if s.cursorMovement &&& LCD_CURSOR_POS_INC ≠ 0 then inc_cursor_loc s.cursorLoc
      else dec_cursor_loc s.cursorLoc := by
  simp only [send_data]
  split_ifs <;> rfl

theorem send_data_valid (b : Nat) {s : LCDState} (h : validAddr s.cursorLoc) :
    validAddr ((send_data s b).1.cursorLoc) := by
  rw [send_data_loc]
  split_ifs
  · exact validAddr_inc h
  · exact validAddr_dec h

theorem send_buffer_valid (bs : List Nat) {s : LCDState} (h : validAddr s.cursorLoc) :
    validAddr ((send_buffer s bs).1.cursorLoc) := by
  induction bs generalizing s with
  | nil => exact h
  | cons b bs ih =>
      simp only [send_buffer]
      exact ih (send_data_valid b h)

theorem create_custom_char_valid (loc : Nat) (g : Fin 8 → Nat) {s : LCDState}
    (h : validAddr s.cursorLoc) : validAddr ((create_custom_char s loc g).1.cursorLoc) := by
  simp only [create_custom_char]
  exact set_cursor_pos_valid _ _ h (get_cursor_col_lt h)

theorem putc_valid (c : Int) {s : LCDState} (h : validAddr s.cursorLoc) :
    validAddr ((putc_lcd s c).1.cursorLoc) := by
  unfold putc_lcd
  split_ifs
  · exact set_cursor_pos_valid _ _ h (get_cursor_col_lt h)
  · exact set_cursor_pos_valid _ _ h (by unfold LCD_LINE_SIZE; omega)
  · exact send_data_valid _ h

theorem step_preserves_validAddr (s : LCDState) (op : Op)
    (hop : opRestricted op = true) (h : validAddr s.cursorLoc) :
    validAddr ((step s op).1.cursorLoc) := by
  cases op with
  | initOp => simpa [step, initialize_lcd] using h
  | sendData b => exact send_data_valid b h
  | sendBuffer bs => exact send_buffer_valid bs h
  | createCustomChar loc g => exact create_custom_char_valid loc g h
  | enableBacklight => simpa [step, enable_backlight] using h
  | disableBacklight => simpa [step, disable_backlight] using h
  | toggleBacklight => simpa [step, toggle_backlight] using h
  | setCursorAutoDec => simpa [step, set_cursor_auto_dec] using h
  | setCursorAutoInc => simpa [step, set_cursor_auto_inc] using h
  | setDisplayAutoDec => simpa [step, set_display_auto_dec] using h
  | setDisplayAutoInc => simpa [step, set_display_auto_inc] using h
  | clearDisplay => simpa [step, clear_display] using h
  | enableDisplay => simpa [step, enable_display] using h
  | disableDisplay => simpa [step, disable_display] using h
  | toggleDisplay => simpa [step, toggle_display] using h
  | setCursorHome =>
      simpa [step, set_cursor_home] using (by decide : validAddr LCD_ORIG_ADDR_FIRST)
  | moveCursorLeft => simpa [step, move_cursor_left] using validAddr_dec h
  | moveCursorRight => simpa [step, move_cursor_right] using validAddr_inc h
  | setCursorPos r c =>
      have hc : c < LCD_LINE_SIZE := by simpa [opRestricted] using hop
      exact set_cursor_pos_valid r c h hc
  | enableCursorDisplay => simpa [step, enable_cursor_display] using h
  | disableCursorDisplay => simpa [step, disable_cursor_display] using h
  | toggleCursorDisplay => simpa [step, toggle_cursor_display] using h
  | enableBlinkingCursor => simpa [step, enable_blinking_cursor] using h
  | disableBlinkingCursor => simpa [step, disable_blinking_cursor] using h
  | toggleBlinkingCursor => simpa [step, toggle_blinking_cursor] using h
  | scrollDisplayLeft => simpa [step, scroll_display_left] using h
  | scrollDisplayRight => simpa [step, scroll_display_right] using h
  | putc c => exact putc_valid c h

theorem run_preserves_validAddr (s : LCDState) (ops : List Op)
    (hops : ∀ op ∈ ops, opRestricted op = true) (h : validAddr s.cursorLoc) :
    validAddr ((run s ops).1.cursorLoc) := by
  induction ops generalizing s with
  | nil => exact h
  | cons op ops ih =>
      simp only [run]
      exact ih _ (fun o ho => hops o (List.mem_cons_of_mem _ ho))
        (step_preserves_validAddr s op (hops op (List.mem_cons_self _ _)) h)

/-- Claim C1 as stated is false on the code: starting from the initial state,
the single public call `set_cursor_pos(0, 40)` is accepted (the guard only
rejects columns strictly above `LCD_LINE_SIZE`) and stores address 0x28,
which lies in the forbidden gap `[0x28, 0x40)`. -/
theorem set_cursor_pos_forty_breaks_invariant :
    (run initState [Op.setCursorPos 0 40]).1.cursorLoc = 0x28 ∧
    ¬ validAddr ((run initState [Op.setCursorPos 0 40]).1.cursorLoc) := by
  decide

/-- Claim C1 (amended): for every sequence of public operations starting from
the initial state in which every `set_cursor_pos` call uses a column strictly
below the row width 0x28, the stored cursor address always lies in row 0
range `[0x00, 0x28)` or row 1 range `[0x40, 0x68)` and never in the gap
`[0x28, 0x40)`. -/
theorem cursor_address_invariant_amended (ops : List Op)
    (hops : ∀ op ∈ ops, opRestricted op = true) :
    validAddr ((run initState ops).1.cursorLoc) :=
  run_preserves_validAddr initState ops hops (by decide)

/-- Witness for the amended claim C1 on a concrete operation sequence. -/
theorem cursor_address_invariant_amended_witness :
    validAddr ((run initState
      [Op.initOp, Op.setCursorPos 1 39, Op.sendData 72, Op.moveCursorLeft,
       Op.putc 10, Op.sendBuffer [72, 73]]).1.cursorLoc) :=
  cursor_address_invariant_amended _ (by decide)

/-- Claim C2 as stated is false at row 0, column 40: the guard only rejects
columns strictly above `LCD_LINE_SIZE` (40), so `set_cursor_pos(0, 40)`
changes the stored address and issues a set-address instruction byte. -/
theorem set_cursor_pos_col_forty_accepted :
    (set_cursor_pos initState 0 40).1.cursorLoc ≠ initState.cursorLoc ∧
    (set_cursor_pos initState 0 40).2 ≠ [] := by
  decide

/-- Claim C2 (amended): for every row r and column c where r is not 0 or 1,
or c strictly exceeds `LCD_LINE_SIZE` = 40 (i.e. c > 40, not c > 39),
`set_cursor_pos(r, c)` is a silent no-op: the state is unchanged and no bus
event is issued; no error is signalled (the method returns nothing). -/
theorem set_cursor_pos_rejects_amended (s : LCDState) (r c : Nat)
    (h : r > 1 ∨ c > LCD_LINE_SIZE) : set_cursor_pos s r c = (s, []) := by
  unfold set_cursor_pos
  rw [if_pos h]

/-- Witness for the amended claim C2 at concrete rejected inputs. -/
theorem set_cursor_pos_rejects_amended_witness :
    set_cursor_pos initState 2 0 = (initState, []) ∧
    set_cursor_pos initState 0 41 = (initState, []) :=
  ⟨set_cursor_pos_rejects_amended initState 2 0 (by decide),
   set_cursor_pos_rejects_amended initState 0 41 (by decide)⟩

/-- Claim C3: for all row in {0,1} and col in [0,40), `set_cursor_pos`
followed by `get_cursor_row`/`get_cursor_col` returns exactly (row, col),
and the stored address equals the row base (0x00 or 0x40) plus col. -/
theorem set_cursor_pos_roundtrip (s : LCDState) (r c : Nat)
    (hr : r ≤ 1) (hc : c < 40) :
    get_cursor_row (set_cursor_pos s r c).1 = r ∧
    get_cursor_col (set_cursor_pos s r c).1 = c ∧
    (set_cursor_pos s r c).1.cursorLoc =
      (if r = 1 then LCD_ORIG_ADDR_SECOND else LCD_ORIG_ADDR_FIRST) + c := by
  have hloc := set_cursor_pos_loc s r c
  rw [if_neg (by unfold LCD_LINE_SIZE; omega)] at hloc
  unfold get_cursor_row get_cursor_col
  rw [hloc]
  unfold LCD_ORIG_ADDR_FIRST LCD_ORIG_ADDR_SECOND
  interval_cases r <;> split_ifs <;> simp_all
  all_goals omega

/-- Witness for claim C3 at row 1, column 7. -/
theorem set_cursor_pos_roundtrip_witness :
    get_cursor_row (set_cursor_pos initState 1 7).1 = 1 ∧
    get_cursor_col (set_cursor_pos initState 1 7).1 = 7 ∧
    (set_cursor_pos initState 1 7).1.cursorLoc =
      (if 1 = 1 then LCD_ORIG_ADDR_SECOND else LCD_ORIG_ADDR_FIRST) + 7 :=
  set_cursor_pos_roundtrip initState 1 7 (by decide) (by decide)

/-- Claim C4 as stated is false: address 0x28 is reachable through the
public interface (one call `set_cursor_pos(0, 40)` from the initial state),
and on it `inc_cursor_loc` followed by `dec_cursor_loc` yields 0x27, not
0x28. -/
theorem inc_dec_not_inverse_at_gap_edge :
    (run initState [Op.setCursorPos 0 40]).1.cursorLoc = 0x28 ∧
    dec_cursor_loc (inc_cursor_loc 0x28) = 0x27 ∧
    dec_cursor_loc (inc_cursor_loc 0x28) ≠ 0x28 := by
  decide

/-- Claim C4 (amended): for every stored address in the valid two-row set
(`[0x00, 0x28) ∪ [0x40, 0x68)` — all addresses reachable without the
off-by-one column 40), `inc_cursor_loc` followed by `dec_cursor_loc`
restores the address, also when performed by `move_cursor_right` then
`move_cursor_left`. -/
theorem dec_inverse_of_inc_on_valid (s : LCDState) (h : validAddr s.cursorLoc) :
    dec_cursor_loc (inc_cursor_loc s.cursorLoc) = s.cursorLoc ∧
    (run s [Op.moveCursorRight, Op.moveCursorLeft]).1.cursorLoc = s.cursorLoc := by
  have h1 : ∀ a : Nat, validAddr a → dec_cursor_loc (inc_cursor_loc a) = a := by
    intro a ha
    have hb := validAddr_bound ha
    interval_cases a <;> revert ha <;> decide
  refine ⟨h1 _ h, ?_⟩
  simp only [run, step, move_cursor_right, move_cursor_left]
  exact h1 _ h

/-- Witness for the amended claim C4 at the initial state (address 0). -/
theorem dec_inverse_of_inc_on_valid_witness :
    dec_cursor_loc (inc_cursor_loc initState.cursorLoc) = initState.cursorLoc ∧
    (run initState [Op.moveCursorRight, Op.moveCursorLeft]).1.cursorLoc =
      initState.cursorLoc :=
  dec_inverse_of_inc_on_valid initState (by decide)

set_option maxRecDepth 40000 in
/-- Claim C5: forty increments from the initial position (0,0) land on
address 0x40, i.e. position (1,0), skipping the gap; forty more return to
address 0, position (0,0); and no strictly shorter nonzero iteration of the
increment returns address 0 to itself, so the orbit has cycle length
exactly 80. -/
theorem increment_cycle_eighty :
    (run initState (List.replicate 40 Op.moveCursorRight)).1.cursorLoc = 0x40 ∧
    get_cursor_row (run initState (List.replicate 40 Op.moveCursorRight)).1 = 1 ∧
    get_cursor_col (run initState (List.replicate 40 Op.moveCursorRight)).1 = 0 ∧
    (run initState (List.replicate 80 Op.moveCursorRight)).1.cursorLoc = 0 ∧
    get_cursor_row (run initState (List.replicate 80 Op.moveCursorRight)).1 = 0 ∧
    get_cursor_col (run initState (List.replicate 80 Op.moveCursorRight)).1 = 0 ∧
    inc_cursor_loc 0 = 1 ∧ inc_cursor_loc 0x27 = 0x40 ∧
    (∀ k < 80, 0 < k → inc_cursor_loc^[k] 0 ≠ 0) := by
  decide

/-- Witness for claim C5: the hypothesis-bearing final conjunct applied at
the concrete iteration count 39. -/
theorem increment_cycle_eighty_witness : inc_cursor_loc^[39] 0 ≠ 0 :=
  increment_cycle_eighty.2.2.2.2.2.2.2.2 39 (by decide) (by decide)

set_option maxRecDepth 100000 in
set_option synthInstance.maxSize 2000 in
/-- Claim C6: `send_byte(byte, isData)` emits exactly six one-byte bus
writes: the three phases of the high nibble first, then the three phases of
the low nibble; every phase byte carries the nibble in bits [7:4], the
current backlight bit in bit 3, the enable strobe in bit 2, 0 (write) in
bit 1 and `isData` in bit 0; the middle phase asserts the strobe and differs
from the two outer phases only in bit 2. -/
theorem send_byte_wire_frames :
    (∀ byte < 256, ∀ isData < 2, ∀ d < 2,
       i2c_send_byte byte isData (8 * d) =
         [pack_result (HI_NIBBLE byte) isData (8 * d),
          pack_strobe (HI_NIBBLE byte) isData (8 * d),
          pack_result (HI_NIBBLE byte) isData (8 * d),
          pack_result (LO_NIBBLE byte) isData (8 * d),
          pack_strobe (LO_NIBBLE byte) isData (8 * d),
          pack_result (LO_NIBBLE byte) isData (8 * d)]) ∧
    (∀ isData < 2, ∀ d < 2, ∀ n < 16,
       (pack_result n isData (8 * d)) >>> 4 = n ∧
       ((pack_result n isData (8 * d)) >>> 3) &&& 1 = d ∧
       ((pack_result n isData (8 * d)) >>> 2) &&& 1 = 0 ∧
       ((pack_result n isData (8 * d)) >>> 1) &&& 1 = 0 ∧
       (pack_result n isData (8 * d)) &&& 1 = isData ∧
       (pack_strobe n isData (8 * d)) >>> 4 = n ∧
       ((pack_strobe n isData (8 * d)) >>> 3) &&& 1 = d ∧
       ((pack_strobe n isData (8 * d)) >>> 2) &&& 1 = 1 ∧
       ((pack_strobe n isData (8 * d)) >>> 1) &&& 1 = 0 ∧
       (pack_strobe n isData (8 * d)) &&& 1 = isData ∧
       (∀ j < 8, j ≠ 2 →
         (pack_strobe n isData (8 * d)).testBit j = (pack_result n isData (8 * d)).testBit j) ∧
       (pack_strobe n isData (8 * d)).testBit 2 = true ∧
       (pack_result n isData (8 * d)).testBit 2 = false) := by
  constructor
  · decide
  · decide

/-- Witness for claim C6 at byte 0x53 with data writes and backlight on. -/
theorem send_byte_wire_frames_witness :
    i2c_send_byte 0x53 1 (8 * 1) =
      [pack_result (HI_NIBBLE 0x53) 1 (8 * 1),
       pack_strobe (HI_NIBBLE 0x53) 1 (8 * 1),
       pack_result (HI_NIBBLE 0x53) 1 (8 * 1),
       pack_result (LO_NIBBLE 0x53) 1 (8 * 1),
       pack_strobe (LO_NIBBLE 0x53) 1 (8 * 1),
       pack_result (LO_NIBBLE 0x53) 1 (8 * 1)] :=
  send_byte_wire_frames.1 0x53 (by decide) 1 (by decide) 1 (by decide)

/-- Claim C7: each entry-mode setter round-trips through `get_entry_mode`
(with the source's inverted naming for the display modes preserved), and any
stored bitmask other than the four setter-produced combinations decodes to
`CURSOR_INC` via the default case. -/
theorem entry_mode_roundtrip_and_fallback :
    (∀ s : LCDState,
       get_entry_mode (set_cursor_auto_inc s).1 = EntryMode.CURSOR_INC ∧
       get_entry_mode (set_cursor_auto_dec s).1 = EntryMode.CURSOR_DEC ∧
       get_entry_mode (set_display_auto_inc s).1 = EntryMode.DISPLAY_INC ∧
       get_entry_mode (set_display_auto_dec s).1 = EntryMode.DISPLAY_DEC) ∧
    (∀ s : LCDState,
       s.cursorMovement ≠ (LCD_CURSOR_MOVE ||| LCD_CURSOR_POS_DEC) →
       s.cursorMovement ≠ (LCD_CURSOR_MOVE ||| LCD_CURSOR_POS_INC) →
       s.cursorMovement ≠ (LCD_DISPLAY_MOVE ||| LCD_CURSOR_POS_INC) →
       s.cursorMovement ≠ (LCD_DISPLAY_MOVE ||| LCD_CURSOR_POS_DEC) →
       get_entry_mode s = EntryMode.CURSOR_INC) := by
  constructor
  · intro s
    exact ⟨rfl, rfl, rfl, rfl⟩
  · intro s h0 h2 h3 h1
    unfold get_entry_mode
    rw [if_neg h0, if_neg h2, if_neg h3, if_neg h1]

/-- Witness for claim C7: the fallback case at the unused bitmask 7. -/
theorem entry_mode_roundtrip_and_fallback_witness :
    get_entry_mode
      { cursorLoc := 0, displayState := 0, cursorMovement := 7, backlightMask := 0 } =
      EntryMode.CURSOR_INC :=
  entry_mode_roundtrip_and_fallback.2 _ (by decide) (by decide) (by decide) (by decide)

theorem set_cursor_pos_restore (loc ds cm bm : Nat)
    (h : loc ≤ 0x28 ∨ (0x40 ≤ loc ∧ loc ≤ 0x68)) :
    set_cursor_pos ⟨loc, ds, cm, bm⟩ (get_cursor_row ⟨loc, ds, cm, bm⟩)
        (get_cursor_col ⟨loc, ds, cm, bm⟩) =
      (⟨loc, ds, cm, bm⟩, [send_byte_ev (LCD_SET_DDRAMADDR ||| loc) 0]) := by
  have hb : loc ≤ 104 := by omega
  interval_cases loc <;> first | rfl | (exact absurd h (by decide))

/-- Claim C8: `create_custom_char(3, pattern)` issues exactly one instruction
byte selecting CGRAM address 24 (slot 3 times 8), then the 8 pattern bytes as
data writes in order, then one DDRAM-address-select instruction; and the
stored cursor row and column after the call equal their values before it.
The hypothesis confines the stored address to the values reachable through
the public interface. -/
theorem create_custom_char_trace_and_cursor (s : LCDState) (g : Fin 8 → Nat)
    (h : s.cursorLoc ≤ 0x28 ∨ (0x40 ≤ s.cursorLoc ∧ s.cursorLoc ≤ 0x68)) :
    (create_custom_char s 3 g).2 =
      send_byte_ev (LCD_SET_CGRAMADDR ||| 24) 0 ::
        (List.ofFn fun i : Fin 8 => send_byte_ev (g i) 1) ++
        [send_byte_ev (LCD_SET_DDRAMADDR ||| s.cursorLoc) 0] ∧
    get_cursor_row (create_custom_char s 3 g).1 = get_cursor_row s ∧
    get_cursor_col (create_custom_char s 3 g).1 = get_cursor_col s := by
  obtain ⟨loc, ds, cm, bm⟩ := s
  have hres := set_cursor_pos_restore loc ds cm bm h
  simp only [create_custom_char]
  rw [hres]
  exact ⟨rfl, rfl, rfl⟩

/-- Witness for claim C8 at the initial state with the identity glyph. -/
theorem create_custom_char_trace_and_cursor_witness :
    (create_custom_char initState 3 (fun i => i.val)).2 =
      send_byte_ev (LCD_SET_CGRAMADDR ||| 24) 0 ::
        (List.ofFn fun i : Fin 8 => send_byte_ev (i.val) 1) ++
        [send_byte_ev (LCD_SET_DDRAMADDR ||| initState.cursorLoc) 0] ∧
    get_cursor_row (create_custom_char initState 3 (fun i => i.val)).1 =
      get_cursor_row initState ∧
    get_cursor_col (create_custom_char initState 3 (fun i => i.val)).1 =
      get_cursor_col initState :=
  create_custom_char_trace_and_cursor initState (fun i => i.val) (by decide)

/-- Claim C9: the seven read-only accessors issue no bus writes and leave
the whole driver state (all four fields) unchanged. -/
theorem readonly_accessors_pure (s : LCDState) :
    (get_cursor_row_call s).2 = (s, ([] : List Ev)) ∧
    (get_cursor_col_call s).2 = (s, ([] : List Ev)) ∧
    (is_backlight_on_call s).2 = (s, ([] : List Ev)) ∧
    (is_display_enabled_call s).2 = (s, ([] : List Ev)) ∧
    (is_cursor_displayed_call s).2 = (s, ([] : List Ev)) ∧
    (is_blinking_cursor_displayed_call s).2 = (s, ([] : List Ev)) ∧
    (get_entry_mode_call s).2 = (s, ([] : List Ev)) :=
  ⟨rfl, rfl, rfl, rfl, rfl, rfl, rfl⟩

/-- Claim C10: `is_display_enabled` tests the whole display-control mask for
zero, not the display-enable bit; after `initialize` then
`enable_cursor_display` then `disable_display` the display-enable bit is
cleared yet the accessor still returns true. -/
theorem display_enabled_whole_mask :
    (∀ s : LCDState, is_display_enabled s = true ↔ s.displayState ≠ 0) ∧
    ((run initState [Op.initOp, Op.enableCursorDisplay, Op.disableDisplay]).1.displayState
        &&& LCD_DISPLAY_ENABLE = 0) ∧
    is_display_enabled
      (run initState [Op.initOp, Op.enableCursorDisplay, Op.disableDisplay]).1 = true := by
  refine ⟨?_, by decide, by decide⟩
  intro s
  simp [is_display_enabled]
